import Mathlib

/-!
Verification of the `gltfio::AssetLoader` interface
(`libs/gltfio/include/gltfio/AssetLoader.h`).

The repository ships only the public header: a class declaration with
documentation comments. Two layers are embedded here.

1. A declaration-level embedding: the access specifiers and special-member
   declarations of the class, transcribed from the header.
2. An operational model of the loader's documented behaviour. The
   implementation is not part of the repository, so the operations are
   modelled from the specification's words (each such definition carries a
   doc comment starting with `Modelled from the spec:`). Process state holds
   the process-wide shadow defaults, the live engines, the live loaders,
   the per-loader material caches (which outlive their loader), and the
   live assets.
-/

namespace Gltfio

/-- C++ access specifier of a class member, as written in the header. -/
inductive Access where
  | pub
  | prot
  | priv
  deriving DecidableEq, Repr

/-- How a C++ special member function is declared in the header. -/
inductive MemberDef where
  | defaulted
  | deleted
  | declaredOnly
  deriving DecidableEq, Repr

/-- A special member function declaration: its access level and body form. -/
structure SpecialMemberDecl where
  access : Access
  body : MemberDef
  deriving DecidableEq, Repr

/-- An ordinary member function declaration: name, staticness, access. -/
structure MethodDecl where
  name : String
  isStatic : Bool
  access : Access
  deriving DecidableEq, Repr

/-- The shape of a C++ class declaration, restricted to what the claims need:
the member functions and the six special member functions. -/
structure ClassDecl where
  methods : List MethodDecl
  defaultCtor : SpecialMemberDecl
  dtor : SpecialMemberDecl
  copyCtor : SpecialMemberDecl
  moveCtor : SpecialMemberDecl
  copyAssign : SpecialMemberDecl
  moveAssign : SpecialMemberDecl
  deriving DecidableEq, Repr

/-- The class declaration of `gltfio::AssetLoader`, transcribed from
`AssetLoader.h`: `create` and `destroy` are static and public; the other
member functions are non-static and public; the default constructor and the
destructor are `= default` under `protected:`; the copy and move
constructors and assignment operators are `= delete` under `public:`. -/
def assetLoaderDecl : ClassDecl where
  methods := [
    ⟨"create", true, Access.pub⟩,
    ⟨"destroy", true, Access.pub⟩,
    ⟨"createAssetFromJson", false, Access.pub⟩,
    ⟨"createAssetFromBinary", false, Access.pub⟩,
    ⟨"destroyAsset", false, Access.pub⟩,
    ⟨"castShadowsByDefault", false, Access.pub⟩,
    ⟨"receiveShadowsByDefault", false, Access.pub⟩,
    ⟨"getMaterialsCount", false, Access.pub⟩,
    ⟨"getMaterials", false, Access.pub⟩,
    ⟨"destroyMaterials", false, Access.pub⟩]
  defaultCtor := ⟨Access.prot, MemberDef.defaulted⟩
  dtor := ⟨Access.prot, MemberDef.defaulted⟩
  copyCtor := ⟨Access.pub, MemberDef.deleted⟩
  moveCtor := ⟨Access.pub, MemberDef.deleted⟩
  copyAssign := ⟨Access.pub, MemberDef.deleted⟩
  moveAssign := ⟨Access.pub, MemberDef.deleted⟩

/-- An asset bundle produced by the loader. Its shadow flags are fixed at
creation time from the process-wide defaults in force at that moment. -/
structure Asset where
  assetId : Nat
  creator : Nat
  castShadows : Bool
  receiveShadows : Bool
  fromJson : Bool
  deriving DecidableEq, Repr

/-- A live loader: its identity and the engine it references weakly. -/
structure Loader where
  loaderId : Nat
  engineId : Nat
  deriving DecidableEq, Repr

/-- The process state visible through the `AssetLoader` interface:
the two process-wide shadow defaults, the live engines, the live loaders,
the material caches keyed by the owning loader's id (a cache outlives its
loader: `destroy` does not free it), the live assets, and a fresh-id
counter. -/
structure ProcState where
  castShadowsDefault : Bool
  receiveShadowsDefault : Bool
  engines : List Nat
  loaders : List Loader
  materialCaches : List (Nat × List Nat)
  assets : List Asset
  nextId : Nat
  deriving DecidableEq, Repr

/-- The state of a fresh process: both shadow defaults are true, nothing is
live yet. -/
def ProcState.init : ProcState where
  castShadowsDefault := true
  receiveShadowsDefault := true
  engines := []
  loaders := []
  materialCaches := []
  assets := []
  nextId := 0

/-- Look up the material cache of the loader with the given id; an absent
entry reads as the empty cache. -/
def cacheLookup : List (Nat × List Nat) → Nat → List Nat
  | [], _ => []
  | p :: rest, l => if p.1 = l then p.2 else cacheLookup rest l

/-- Add a material template to the cache entry of the given loader. -/
def cacheAdd : List (Nat × List Nat) → Nat → Nat → List (Nat × List Nat)
  | [], _, _ => []
  | p :: rest, l, m =>
    if p.1 = l then (p.1, m :: p.2) :: rest else p :: cacheAdd rest l m

/-- Empty the cache entry of the given loader, keeping every other entry. -/
def cacheClear : List (Nat × List Nat) → Nat → List (Nat × List Nat)
  | [], _ => []
  | p :: rest, l =>
    if p.1 = l then (p.1, []) :: rest else p :: cacheClear rest l

/-- Creation of a Filament engine (an external collaborator): registers a
fresh live engine id. -/
def createEngine (s : ProcState) : ProcState × Nat :=
  ({ s with engines := s.nextId :: s.engines, nextId := s.nextId + 1 },
   s.nextId)

/-- Modelled from the spec: the implementation of `AssetLoader::create` is
not in the repository. Per the header, it "creates an asset loader and its
materials cache for the given engine" and "the engine is held weakly": a
fresh loader referencing the engine id is registered together with an empty
material cache, and the set of live engines is not touched (no ownership is
taken). -/
def create (s : ProcState) (engine : Nat) : ProcState × Nat :=
  ({ s with
      loaders := ⟨s.nextId, engine⟩ :: s.loaders,
      materialCaches := s.materialCaches ++ [(s.nextId, [])],
      nextId := s.nextId + 1 },
   s.nextId)

/-- Modelled from the spec: the implementation of `AssetLoader::destroy` is
not in the repository. Per the spec, it frees the loader, nulls the pointer
referenced by its argument, and "does not automatically free the cache of
materials". The pointer-to-pointer argument is modelled as an
`Option Nat` cell; the returned cell is the nulled pointer. -/
def destroy (s : ProcState) (ptr : Option Nat) : ProcState × Option Nat :=
  match ptr with
  | none => (s, none)
  | some lid =>
    ({ s with loaders := s.loaders.filter (fun l => l.loaderId != lid) },
     none)

/-- Modelled from the spec: the glTF JSON parser is not in the repository.
The spec leaves the exact malformed-input criteria open; the only point it
fixes is that empty input fails. Well-formedness is therefore instantiated
minimally as nonemptiness of the byte buffer. -/
def gltfJsonWellFormed (bytes : List Nat) : Bool := !bytes.isEmpty

/-- Modelled from the spec: the GLB parser is not in the repository; as for
the JSON form, well-formedness is instantiated minimally as nonemptiness. -/
def gltfBinaryWellFormed (bytes : List Nat) : Bool := !bytes.isEmpty

/-- Modelled from the spec: the implementation of `createAssetFromJson` is
not in the repository. On well-formed input it produces a fresh asset whose
shadow flags are the process-wide defaults in force now, caches a material
template for the creating loader, and returns the asset's id; on malformed
input it leaves the state unchanged and returns null (`none`). -/
def createAssetFromJson (s : ProcState) (lid : Nat) (bytes : List Nat) :
    ProcState × Option Nat :=
  if gltfJsonWellFormed bytes then
    ({ s with
        assets := { assetId := s.nextId, creator := lid,
                    castShadows := s.castShadowsDefault,
                    receiveShadows := s.receiveShadowsDefault,
                    fromJson := true } :: s.assets,
        materialCaches := cacheAdd s.materialCaches lid (s.nextId + 1),
        nextId := s.nextId + 2 },
     some s.nextId)
  else (s, none)

/-- Modelled from the spec: the implementation of `createAssetFromBinary` is
not in the repository. Same contract as the JSON form, for GLB content. -/
def createAssetFromBinary (s : ProcState) (lid : Nat) (bytes : List Nat) :
    ProcState × Option Nat :=
  if gltfBinaryWellFormed bytes then
    ({ s with
        assets := { assetId := s.nextId, creator := lid,
                    castShadows := s.castShadowsDefault,
                    receiveShadows := s.receiveShadowsDefault,
                    fromJson := false } :: s.assets,
        materialCaches := cacheAdd s.materialCaches lid (s.nextId + 1),
        nextId := s.nextId + 2 },
     some s.nextId)
  else (s, none)

/-- Modelled from the spec: `destroyAsset` "destroys all associated Filament
objects" of one asset; the asset is removed from the live set. -/
def destroyAsset (s : ProcState) (aid : Nat) : ProcState :=
  { s with assets := s.assets.filter (fun a => a.assetId != aid) }

/-- Modelled from the spec: `castShadowsByDefault(bool)` mutates the
process-wide cast-shadows default applied to assets created afterward. The
loader the member call is made on is irrelevant to the effect. -/
def castShadowsByDefault (s : ProcState) (_lid : Nat) (enable : Bool) :
    ProcState :=
  { s with castShadowsDefault := enable }

/-- Modelled from the spec: `receiveShadowsByDefault(bool)` mutates the
process-wide receive-shadows default applied to assets created afterward. -/
def receiveShadowsByDefault (s : ProcState) (_lid : Nat) (enable : Bool) :
    ProcState :=
  { s with receiveShadowsDefault := enable }

/-- Modelled from the spec: `getMaterials` gives read-only access to the
cached material templates of the loader. -/
def getMaterials (s : ProcState) (lid : Nat) : List Nat :=
  cacheLookup s.materialCaches lid

/-- Modelled from the spec: `getMaterialsCount` is the size of the cache. -/
def getMaterialsCount (s : ProcState) (lid : Nat) : Nat :=
  (getMaterials s lid).length

/-- Modelled from the spec: `destroyMaterials` "releases all cached
material templates" of the loader, independently of individual asset
lifetimes: only the loader's material cache entry is touched. -/
def destroyMaterials (s : ProcState) (lid : Nat) : ProcState :=
  { s with materialCaches := cacheClear s.materialCaches lid }

/-- One client-visible operation of the interface, for trace reasoning. -/
inductive Op where
  | opCreateEngine
  | opCreate (engine : Nat)
  | opDestroy (lid : Nat)
  | opCreateAssetFromJson (lid : Nat) (bytes : List Nat)
  | opCreateAssetFromBinary (lid : Nat) (bytes : List Nat)
  | opDestroyAsset (aid : Nat)
  | opCastShadowsByDefault (lid : Nat) (enable : Bool)
  | opReceiveShadowsByDefault (lid : Nat) (enable : Bool)
  | opDestroyMaterials (lid : Nat)
  deriving DecidableEq, Repr

/-- Whether an operation is one of the two shadow-default setters. -/
def Op.isShadowCall : Op → Bool
  | .opCastShadowsByDefault _ _ => true
  | .opReceiveShadowsByDefault _ _ => true
  | _ => false

/-- The state transition of one operation. -/
def step (s : ProcState) : Op → ProcState
  | .opCreateEngine => (createEngine s).1
  | .opCreate e => (create s e).1
  | .opDestroy lid => (destroy s (some lid)).1
  | .opCreateAssetFromJson lid bytes => (createAssetFromJson s lid bytes).1
  | .opCreateAssetFromBinary lid bytes =>
      (createAssetFromBinary s lid bytes).1
  | .opDestroyAsset aid => destroyAsset s aid
  | .opCastShadowsByDefault lid b => castShadowsByDefault s lid b
  | .opReceiveShadowsByDefault lid b => receiveShadowsByDefault s lid b
  | .opDestroyMaterials lid => destroyMaterials s lid

/-- Run a sequence of operations from a state. -/
def run (s : ProcState) (ops : List Op) : ProcState :=
  ops.foldl step s

/-! ### Helper lemmas -/

lemma run_append (s : ProcState) (pre : List Op) (op : Op) :
    run s (pre ++ [op]) = step (run s pre) op := by
  simp [run, List.foldl_append]

lemma cacheLookup_cacheAdd_mem (caches : List (Nat × List Nat))
    (lid m l x : Nat) (h : x ∈ cacheLookup caches l) :
    x ∈ cacheLookup (cacheAdd caches lid m) l := by
  induction caches with
  | nil => simp [cacheLookup] at h
  | cons p rest ih =>
    by_cases hp : p.1 = lid
    · simp only [cacheAdd, if_pos hp]
      by_cases hl : p.1 = l
      · simp only [cacheLookup, hl, if_pos rfl] at h ⊢
        exact List.mem_cons_of_mem _ h
      · simp only [cacheLookup, hl, if_neg hl] at h ⊢
        exact h
    · simp only [cacheAdd, if_neg hp]
      by_cases hl : p.1 = l
      · simp only [cacheLookup, if_pos hl] at h ⊢
        exact h
      · simp only [cacheLookup, if_neg hl] at h ⊢
        exact ih h

lemma cacheLookup_append_mem (caches : List (Nat × List Nat))
    (q : Nat × List Nat) (l x : Nat) (h : x ∈ cacheLookup caches l) :
    x ∈ cacheLookup (caches ++ [q]) l := by
  induction caches with
  | nil => simp [cacheLookup] at h
  | cons p rest ih =>
    rw [List.cons_append]
    simp only [cacheLookup] at h ⊢
    by_cases hp : p.1 = l
    · rw [if_pos hp] at h ⊢; exact h
    · rw [if_neg hp] at h ⊢; exact ih h

lemma cacheLookup_cacheClear_self (caches : List (Nat × List Nat))
    (l : Nat) : cacheLookup (cacheClear caches l) l = [] := by
  induction caches with
  | nil => simp [cacheClear, cacheLookup]
  | cons p rest ih =>
    by_cases hp : p.1 = l
    · simp [cacheClear, cacheLookup, if_pos hp, hp]
    · simp [cacheClear, cacheLookup, if_neg hp, hp, ih]

/-! ### Claim theorems -/

/-- C1: `createAssetFromJson` and `createAssetFromBinary` return a result
that is either a real asset id or null, and the result is null exactly when
the input fails the (spec-modelled) well-formedness check; in particular on
empty input both return null. -/
theorem createAsset_null_iff_failure (s : ProcState) (lid : Nat)
    (bytes : List Nat) :
    ((createAssetFromJson s lid bytes).2 = none ↔
      gltfJsonWellFormed bytes = false) ∧
    ((createAssetFromBinary s lid bytes).2 = none ↔
      gltfBinaryWellFormed bytes = false) ∧
    (createAssetFromJson s lid []).2 = none ∧
    (createAssetFromBinary s lid []).2 = none := by
  refine ⟨?_, ?_, ?_, ?_⟩
  · by_cases h : gltfJsonWellFormed bytes <;>
      simp [createAssetFromJson, h]
  · by_cases h : gltfBinaryWellFormed bytes <;>
      simp [createAssetFromBinary, h]
  · simp [createAssetFromJson, gltfJsonWellFormed]
  · simp [createAssetFromBinary, gltfBinaryWellFormed]

/-- C1 witness: on the empty buffer the JSON creation function returns
null. -/
theorem createAsset_null_iff_failure_witness :
    (createAssetFromJson ProcState.init 0 []).2 = none :=
  (createAsset_null_iff_failure ProcState.init 0 []).2.2.1

/-- C2: after any operation sequence, appending a call to
`castShadowsByDefault` or `receiveShadowsByDefault` leaves the set of
already-created assets — each asset record including its shadow flags —
exactly as it was, while the corresponding default applied to assets
created afterward becomes the new value. -/
theorem shadow_setters_spare_existing_assets (pre : List Op) (l : Nat)
    (b : Bool) :
    (run ProcState.init
        (pre ++ [Op.opCastShadowsByDefault l b])).assets
      = (run ProcState.init pre).assets ∧
    (run ProcState.init
        (pre ++ [Op.opReceiveShadowsByDefault l b])).assets
      = (run ProcState.init pre).assets ∧
    (run ProcState.init
        (pre ++ [Op.opCastShadowsByDefault l b])).castShadowsDefault = b ∧
    (run ProcState.init
        (pre ++ [Op.opReceiveShadowsByDefault l b])).receiveShadowsDefault
      = b := by
  refine ⟨?_, ?_, ?_, ?_⟩ <;>
    rw [run_append] <;>
    simp [step, castShadowsByDefault, receiveShadowsByDefault]

/-- C6: `destroyMaterials` leaves every previously created asset valid and
unchanged (the live-asset list is untouched), and leaves the live loaders
untouched as well; only the loader's material cache is cleared. -/
theorem destroyMaterials_spares_assets (s : ProcState) (lid : Nat) :
    (destroyMaterials s lid).assets = s.assets ∧
    (destroyMaterials s lid).loaders = s.loaders ∧
    getMaterials (destroyMaterials s lid) lid = [] := by
  refine ⟨rfl, rfl, ?_⟩
  simp [destroyMaterials, getMaterials, cacheLookup_cacheClear_self]

/-- C7: `destroy` nulls the pointer referenced by its argument: the
returned pointer cell is always `none`. -/
theorem destroy_nulls_pointer (s : ProcState) (ptr : Option Nat) :
    (destroy s ptr).2 = none := by
  cases ptr <;> rfl

/-- C8: in the class declaration of `AssetLoader`, the copy constructor,
move constructor, copy assignment and move assignment are all declared
`= delete`, so instances are never copyable or movable. -/
theorem assetLoader_not_copyable_not_movable :
    assetLoaderDecl.copyCtor.body = MemberDef.deleted ∧
    assetLoaderDecl.moveCtor.body = MemberDef.deleted ∧
    assetLoaderDecl.copyAssign.body = MemberDef.deleted ∧
    assetLoaderDecl.moveAssign.body = MemberDef.deleted := by
  refine ⟨rfl, rfl, rfl, rfl⟩

/-- C9: the loader holds the engine weakly and never extends its lifetime:
creating a loader for an engine, destroying a loader, and destroying a
loader's materials all leave the set of live engines exactly as it was. -/
theorem engine_held_weakly (s : ProcState) (ptr : Option Nat)
    (lid e : Nat) :
    (create s e).1.engines = s.engines ∧
    (destroy s ptr).1.engines = s.engines ∧
    (destroyMaterials s lid).engines = s.engines := by
  refine ⟨rfl, ?_, rfl⟩
  cases ptr <;> rfl

/-- C3: the two shadow-default setters mutate process-wide state: calling a
setter through any loader yields the same state as calling it through any
other, and an asset subsequently created by any loader at all picks up the
new value. The created asset is given explicitly: its cast-shadows flag is
the value `b` just set, regardless of which loader set it and which loader
created the asset. -/
theorem shadow_defaults_process_wide (s : ProcState) (l1 l2 lc : Nat)
    (b : Bool) (bytes : List Nat)
    (hwf : gltfJsonWellFormed bytes = true) :
    castShadowsByDefault s l1 b = castShadowsByDefault s l2 b ∧
    receiveShadowsByDefault s l1 b = receiveShadowsByDefault s l2 b ∧
    (createAssetFromJson (castShadowsByDefault s l1 b) lc bytes).2
      = some s.nextId ∧
    ({ assetId := s.nextId, creator := lc, castShadows := b,
       receiveShadows := s.receiveShadowsDefault, fromJson := true }
        : Asset)
      ∈ (createAssetFromJson (castShadowsByDefault s l1 b) lc
          bytes).1.assets := by
  refine ⟨rfl, rfl, ?_, ?_⟩ <;>
    simp [createAssetFromJson, castShadowsByDefault, hwf]

/-- C3 witness: with the default set to `true` through loader 0, an asset
then created by loader 2 comes back non-null with the fresh id. -/
theorem shadow_defaults_process_wide_witness :
    (createAssetFromJson (castShadowsByDefault ProcState.init 0 true) 2
      [7]).2 = some 0 :=
  (shadow_defaults_process_wide ProcState.init 0 1 2 true [7]
    (by decide)).2.2.1

lemma run_no_shadow_invariant (ops : List Op) :
    ∀ s : ProcState, ops.all (fun o => !o.isShadowCall) = true →
    s.castShadowsDefault = true → s.receiveShadowsDefault = true →
    (∀ a ∈ s.assets, a.castShadows = true ∧ a.receiveShadows = true) →
    (run s ops).castShadowsDefault = true ∧
    (run s ops).receiveShadowsDefault = true ∧
    ∀ a ∈ (run s ops).assets,
      a.castShadows = true ∧ a.receiveShadows = true := by
  induction ops with
  | nil => intro s _ hc hr ha; exact ⟨hc, hr, ha⟩
  | cons op rest ih =>
    intro s hall hc hr ha
    rw [List.all_cons, Bool.and_eq_true] at hall
    have hrun : run s (op :: rest) = run (step s op) rest := rfl
    rw [hrun]
    refine ih (step s op) hall.2 ?_ ?_ ?_
    all_goals cases op with
    | opCreateEngine => first
      | simpa [step, createEngine] using hc
      | simpa [step, createEngine] using hr
      | simpa [step, createEngine] using ha
    | opCreate e => first
      | simpa [step, create] using hc
      | simpa [step, create] using hr
      | simpa [step, create] using ha
    | opDestroy lid => first
      | simpa [step, destroy] using hc
      | simpa [step, destroy] using hr
      | simpa [step, destroy] using ha
    | opCreateAssetFromJson lid bytes => first
      | by_cases hwf : gltfJsonWellFormed bytes <;>
          simpa [step, createAssetFromJson, hwf] using hc
      | by_cases hwf : gltfJsonWellFormed bytes <;>
          simpa [step, createAssetFromJson, hwf] using hr
      | by_cases hwf : gltfJsonWellFormed bytes
        · intro a hmem
          simp only [step, createAssetFromJson, if_pos hwf,
            List.mem_cons] at hmem
          rcases hmem with hnew | hold
          · subst hnew; exact ⟨hc, hr⟩
          · exact ha a hold
        · simpa [step, createAssetFromJson, hwf] using ha
    | opCreateAssetFromBinary lid bytes => first
      | by_cases hwf : gltfBinaryWellFormed bytes <;>
          simpa [step, createAssetFromBinary, hwf] using hc
      | by_cases hwf : gltfBinaryWellFormed bytes <;>
          simpa [step, createAssetFromBinary, hwf] using hr
      | by_cases hwf : gltfBinaryWellFormed bytes
        · intro a hmem
          simp only [step, createAssetFromBinary, if_pos hwf,
            List.mem_cons] at hmem
          rcases hmem with hnew | hold
          · subst hnew; exact ⟨hc, hr⟩
          · exact ha a hold
        · simpa [step, createAssetFromBinary, hwf] using ha
    | opDestroyAsset aid => first
      | simpa [step, destroyAsset] using hc
      | simpa [step, destroyAsset] using hr
      | intro a hmem
        exact ha a (List.mem_of_mem_filter hmem)
    | opCastShadowsByDefault lid b =>
        exact absurd hall.1 (by simp [Op.isShadowCall])
    | opReceiveShadowsByDefault lid b =>
        exact absurd hall.1 (by simp [Op.isShadowCall])
    | opDestroyMaterials lid => first
      | simpa [step, destroyMaterials] using hc
      | simpa [step, destroyMaterials] using hr
      | simpa [step, destroyMaterials] using ha

/-- C4: both shadow defaults start out true, and along any operation
sequence containing no call to `castShadowsByDefault` or
`receiveShadowsByDefault`, every asset ever created both casts and
receives shadows. -/
theorem shadow_defaults_start_true (ops : List Op)
    (hall : ops.all (fun o => !o.isShadowCall) = true) (a : Asset)
    (ha : a ∈ (run ProcState.init ops).assets) :
    ProcState.init.castShadowsDefault = true ∧
    ProcState.init.receiveShadowsDefault = true ∧
    a.castShadows = true ∧ a.receiveShadows = true := by
  have h := run_no_shadow_invariant ops ProcState.init hall rfl rfl
    (by intro a ha; cases ha)
  exact ⟨rfl, rfl, h.2.2 a ha⟩

/-- C4 witness: on the trace create-engine, create-loader, create-asset
(no shadow-setter call), the created asset casts and receives shadows. -/
theorem shadow_defaults_start_true_witness :
    ProcState.init.castShadowsDefault = true ∧
    ProcState.init.receiveShadowsDefault = true ∧
    ({ assetId := 2, creator := 1, castShadows := true,
       receiveShadows := true, fromJson := true } : Asset).castShadows
      = true ∧
    ({ assetId := 2, creator := 1, castShadows := true,
       receiveShadows := true, fromJson := true } : Asset).receiveShadows
      = true :=
  shadow_defaults_start_true
    [Op.opCreateEngine, Op.opCreate 0, Op.opCreateAssetFromJson 1 [1]]
    (by decide)
    { assetId := 2, creator := 1, castShadows := true,
      receiveShadows := true, fromJson := true }
    (by decide)

/-- C5: `destroy` frees the loader but leaves every material cache exactly
as it was; caches shrink only through `destroyMaterials`: under any other
operation no cached material template disappears, while `destroyMaterials`
itself empties the loader's cache. -/
theorem destroy_spares_materials (s : ProcState) (lid : Nat) (op : Op)
    (hop : ∀ l, op ≠ Op.opDestroyMaterials l) :
    (destroy s (some lid)).1.materialCaches = s.materialCaches ∧
    (∀ l, getMaterials (destroy s (some lid)).1 l = getMaterials s l) ∧
    getMaterials (destroyMaterials s lid) lid = [] ∧
    ∀ l m, m ∈ getMaterials s l → m ∈ getMaterials (step s op) l := by
  refine ⟨rfl, fun l => rfl, ?_, ?_⟩
  · simp [destroyMaterials, getMaterials, cacheLookup_cacheClear_self]
  · intro l m hm
    cases op with
    | opCreateEngine => exact hm
    | opCreate e =>
        exact cacheLookup_append_mem s.materialCaches (s.nextId, []) l m hm
    | opDestroy lid2 => exact hm
    | opCreateAssetFromJson lid2 bytes =>
        by_cases hwf : gltfJsonWellFormed bytes
        · simp only [step, createAssetFromJson, if_pos hwf,
            getMaterials] at hm ⊢
          exact cacheLookup_cacheAdd_mem _ _ _ _ _ hm
        · simpa [step, createAssetFromJson, hwf] using hm
    | opCreateAssetFromBinary lid2 bytes =>
        by_cases hwf : gltfBinaryWellFormed bytes
        · simp only [step, createAssetFromBinary, if_pos hwf,
            getMaterials] at hm ⊢
          exact cacheLookup_cacheAdd_mem _ _ _ _ _ hm
        · simpa [step, createAssetFromBinary, hwf] using hm
    | opDestroyAsset aid => exact hm
    | opCastShadowsByDefault lid2 b => exact hm
    | opReceiveShadowsByDefault lid2 b => exact hm
    | opDestroyMaterials lid2 => exact absurd rfl (hop lid2)

/-- C5 witness: at the initial state, destroying loader 1 leaves the
material caches untouched. -/
theorem destroy_spares_materials_witness :
    (destroy ProcState.init (some 1)).1.materialCaches
      = ProcState.init.materialCaches :=
  (destroy_spares_materials ProcState.init 1 Op.opCreateEngine
    (by intro l h; cases h)).1

/-- C10: the factory-paired lifecycle is the only lifecycle. In the class
declaration, the default constructor and the destructor are protected while
`create` and `destroy` are public static member functions; and in the
operational model a loader becomes live only through a create operation and
stops being live only through a destroy operation. -/
theorem factory_only_lifecycle (s : ProcState) (op : Op) (l : Loader) :
    assetLoaderDecl.defaultCtor.access = Access.prot ∧
    assetLoaderDecl.dtor.access = Access.prot ∧
    MethodDecl.mk "create" true Access.pub ∈ assetLoaderDecl.methods ∧
    MethodDecl.mk "destroy" true Access.pub ∈ assetLoaderDecl.methods ∧
    (l ∈ (step s op).loaders ∧ l ∉ s.loaders →
      ∃ e, op = Op.opCreate e) ∧
    (l ∈ s.loaders ∧ l ∉ (step s op).loaders →
      ∃ lid, op = Op.opDestroy lid) := by
  refine ⟨rfl, rfl, by decide, by decide, ?_, ?_⟩
  · intro h
    cases op with
    | opCreateEngine => exact absurd h.1 h.2
    | opCreate e => exact ⟨e, rfl⟩
    | opDestroy lid => exact absurd (List.mem_of_mem_filter h.1) h.2
    | opCreateAssetFromJson lid bytes =>
        refine absurd ?_ h.2
        by_cases hwf : gltfJsonWellFormed bytes <;>
          simpa [step, createAssetFromJson, hwf] using h.1
    | opCreateAssetFromBinary lid bytes =>
        refine absurd ?_ h.2
        by_cases hwf : gltfBinaryWellFormed bytes <;>
          simpa [step, createAssetFromBinary, hwf] using h.1
    | opDestroyAsset aid => exact absurd h.1 h.2
    | opCastShadowsByDefault lid b => exact absurd h.1 h.2
    | opReceiveShadowsByDefault lid b => exact absurd h.1 h.2
    | opDestroyMaterials lid => exact absurd h.1 h.2
  · intro h
    cases op with
    | opCreateEngine => exact absurd h.1 h.2
    | opCreate e => exact absurd (List.mem_cons_of_mem _ h.1) h.2
    | opDestroy lid => exact ⟨lid, rfl⟩
    | opCreateAssetFromJson lid bytes =>
        refine absurd h.1 ?_
        by_cases hwf : gltfJsonWellFormed bytes <;>
          simpa [step, createAssetFromJson, hwf] using h.2
    | opCreateAssetFromBinary lid bytes =>
        refine absurd h.1 ?_
        by_cases hwf : gltfBinaryWellFormed bytes <;>
          simpa [step, createAssetFromBinary, hwf] using h.2
    | opDestroyAsset aid => exact absurd h.1 h.2
    | opCastShadowsByDefault lid b => exact absurd h.1 h.2
    | opReceiveShadowsByDefault lid b => exact absurd h.1 h.2
    | opDestroyMaterials lid => exact absurd h.1 h.2

/-- C10 witness: on the initial state, the operation that makes loader
`⟨0, 5⟩` live is a create operation. -/
theorem factory_only_lifecycle_witness :
    ∃ e, Op.opCreate 5 = Op.opCreate e :=
  (factory_only_lifecycle ProcState.init (Op.opCreate 5)
    ⟨0, 5⟩).2.2.2.2.1 ⟨by decide, by decide⟩

end Gltfio
